import Mathlib

/-!
Verification of the neurones delegation/execution core against its
natural-language specification.

The Python sources are shallowly embedded:
* pure functions (status labels, command building, rate-limit pattern
  matching, output parsing) become Lean functions over `String`,
  `List Char` and `List UInt8`;
* the stateful retry loop of `AgentExecutor.run_single` and the
  orchestration flow of `Orchestrator.run` become functions that take the
  outcomes of process spawning (an oracle `Nat → ExecOutcome`, resp. the
  executor call results) as explicit arguments and return the final value
  together with a trace of the external calls made;
* Python `float` delay values are modelled as rationals `ℚ`;
* byte strings are `List UInt8`, decoded by an executable UTF-8 decoder
  with replacement (Python `decode("utf-8", errors="replace")`).
-/

namespace Neurones

/-! ## String helpers (Python `in`, `str.strip`, `str.lower`) -/

/-- Whether `needle` is a prefix of `hay` (character lists, plain `==`). -/
def startsWithChars : List Char → List Char → Bool
  | [], _ => true
  | _ :: _, [] => false
  | c :: cs, x :: xs => c == x && startsWithChars cs xs

/-- Whether `needle` occurs contiguously inside `hay`; Python `needle in hay`. -/
def containsChars : List Char → List Char → Bool
  | needle, [] => needle.isEmpty
  | needle, x :: rest => startsWithChars needle (x :: rest) || containsChars needle rest

/-- Python substring test `needle in hay` on strings. -/
def strContains (hay needle : String) : Bool :=
  containsChars needle.toList hay.toList

/-- The character set stripped by Python `str.strip()` (ASCII whitespace). -/
def isPyWs (c : Char) : Bool :=
  c == ' ' || c == '\t' || c == '\n' || c == '\r' || c == '\x0b' || c == '\x0c'

/-- Python `str.strip()`: drop leading and trailing whitespace. -/
def pyStrip (s : String) : String :=
  String.mk (((s.toList.dropWhile isPyWs).reverse.dropWhile isPyWs).reverse)

/-- Python `str.lower()`, character by character. -/
def pyLower (s : String) : String :=
  String.mk (s.toList.map Char.toLower)

/-! ## Result model — `neurones/models/result.py`

`AgentResult` is the dataclass of `result.py`.  The `duration_seconds`
(wall-clock float) and `metadata` fields are not modelled: no claim
mentions them and they do not influence any modelled computation. -/

structure AgentResult where
  agentName : String
  output : String
  success : Bool
  returncode : Int := 0
  stderr : String := ""
  rateLimited : Bool := false
  retries : Nat := 0
deriving Repr, DecidableEq

/-- Constructor `AgentResult.from_error`: a failed result from an exception,
with `str(error)` as the error text. -/
def AgentResult.fromError (agentName : String) (error : String) : AgentResult :=
  { agentName := agentName
    output := ""
    success := false
    returncode := -1
    stderr := error }

/-- Property `AgentResult.status_label` of `result.py`, lines 34–45. -/
def statusLabel (r : AgentResult) : String :=
  if r.success then
    if r.retries > 0 then
      "SUCCESS (retried " ++ Nat.repr r.retries ++ "x)"
    else
      "SUCCESS"
  else if r.rateLimited then
    "RATE_LIMITED"
  else if strContains (pyLower r.stderr) "timed out" || strContains (pyLower r.stderr) "timeout" then
    "TIMEOUT"
  else
    "FAILED"

/-! ## Rate-limit regexes — `neurones/adapters/base.py`

The nine `RATE_LIMIT_PATTERNS` regexes use only literal characters, the
optional wildcard `.?` (zero chars, or one char other than a newline) and
an optional literal `s?`, all with `re.IGNORECASE`.  They are embedded as
token lists with an executable backtracking matcher. -/

inductive RTok where
  | lit (c : Char)
  | optAny
  | optLit (c : Char)
deriving Repr, DecidableEq

/-- Literal tokens of a lowercase pattern string. -/
def lits (s : String) : List RTok :=
  s.toList.map RTok.lit

/-- Match a token pattern against a prefix of the text (case-insensitively;
`optAny` matches nothing or any single non-newline character). -/
def rmatch : List RTok → List Char → Bool
  | [], _ => true
  | RTok.lit _ :: _, [] => false
  | RTok.lit c :: ps, x :: xs => x.toLower == c && rmatch ps xs
  | RTok.optAny :: ps, [] => rmatch ps []
  | RTok.optAny :: ps, x :: xs =>
      (!(x == '\n') && rmatch ps xs) || rmatch ps (x :: xs)
  | RTok.optLit _ :: ps, [] => rmatch ps []
  | RTok.optLit c :: ps, x :: xs =>
      (x.toLower == c && rmatch ps xs) || rmatch ps (x :: xs)

/-- Python `re.search`: the pattern matches at some position of the text. -/
def rsearch (ps : List RTok) : List Char → Bool
  | [] => rmatch ps []
  | x :: rest => rmatch ps (x :: rest) || rsearch ps rest

def patRateLimit : List RTok := lits "rate" ++ [RTok.optAny] ++ lits "limit"

def patTooManyRequests : List RTok := lits "too many requests"

def pat429 : List RTok := lits "429"

def patQuotaExceeded : List RTok := lits "quota" ++ [RTok.optAny] ++ lits "exceeded"

def patResourceExhausted : List RTok := lits "resource" ++ [RTok.optAny] ++ lits "exhausted"

def patOverloaded : List RTok := lits "overloaded"

def patRetryAfter : List RTok := lits "retry" ++ [RTok.optAny] ++ lits "after"

def patTokensPerMin : List RTok :=
  lits "token" ++ [RTok.optLit 's', RTok.optAny] ++ lits "per" ++ [RTok.optAny] ++ lits "min"

def patRequestsPerMin : List RTok :=
  lits "request" ++ [RTok.optLit 's', RTok.optAny] ++ lits "per" ++ [RTok.optAny] ++ lits "min"

/-- The `RATE_LIMIT_PATTERNS` list of `base.py`, lines 13–23, in source order. -/
def RATE_LIMIT_PATTERNS : List (List RTok) :=
  [patRateLimit, patTooManyRequests, pat429, patQuotaExceeded, patResourceExhausted,
   patOverloaded, patRetryAfter, patTokensPerMin, patRequestsPerMin]

/-- The combined text `f"{stdout}\n{stderr}"` scanned by the detectors. -/
def combinedText (stdout stderr : String) : String :=
  stdout ++ "\n" ++ stderr

/-- Method `AgentAdapter.is_rate_limited` of `base.py`, lines 65–68: any
pattern matches the concatenation of stdout and stderr. -/
def isRateLimited (stdout stderr : String) (_returncode : Int) : Bool :=
  RATE_LIMIT_PATTERNS.any fun p => rsearch p (combinedText stdout stderr).toList

/-! ## Retry-after extraction — `RETRY_AFTER_PATTERN` of `base.py`

The regex `retry.?after[:\s]+(\d+(?:\.\d+)?)` searched left to right; the
captured number is returned as a rational (Python returns a float). -/

/-- Match a literal word case-insensitively, returning the rest of the text. -/
def matchLitCI : List Char → List Char → Option (List Char)
  | [], xs => some xs
  | _ :: _, [] => none
  | c :: cs, x :: xs => if x.toLower == c then matchLitCI cs xs else none

/-- Characters of the regex class `[:\s]`. -/
def isColonWs (c : Char) : Bool :=
  c == ':' || c == ' ' || c == '\t' || c == '\n' || c == '\r' || c == '\x0b' || c == '\x0c'

/-- Numeric value of a digit string. -/
def digitsToNat (ds : List Char) : Nat :=
  ds.foldl (fun n c => n * 10 + (c.toNat - '0'.toNat)) 0

/-- Try to match `retry.?after[:\s]+(\d+(?:\.\d+)?)` at the head of the text,
returning the captured number. -/
def matchRetryAfterAt (xs : List Char) : Option ℚ := do
  let r1 ← matchLitCI "retry".toList xs
  let r3 ←
    match r1 with
    | x :: r2 =>
      if x == '\n' then matchLitCI "after".toList r1
      else
        match matchLitCI "after".toList r2 with
        | some r => some r
        | none => matchLitCI "after".toList r1
    | [] => matchLitCI "after".toList r1
  let sep := r3.takeWhile isColonWs
  if sep.isEmpty then none
  else
    let r4 := r3.drop sep.length
    let ds := r4.takeWhile Char.isDigit
    if ds.isEmpty then none
    else
      let r5 := r4.drop ds.length
      let intPart : ℚ := (digitsToNat ds : ℚ)
      match r5 with
      | '.' :: r6 =>
        let fs := r6.takeWhile Char.isDigit
        if fs.isEmpty then some intPart
        else some (intPart + (digitsToNat fs : ℚ) / ((10 : ℚ) ^ fs.length))
      | _ => some intPart

/-- Leftmost search for the retry-after pattern. -/
def searchRetryAfter : List Char → Option ℚ
  | [] => matchRetryAfterAt []
  | x :: rest =>
    match matchRetryAfterAt (x :: rest) with
    | some v => some v
    | none => searchRetryAfter rest

/-- Method `AgentAdapter.extract_retry_after` of `base.py`, lines 70–76. -/
def extractRetryAfter (stdout stderr : String) : Option ℚ :=
  searchRetryAfter (combinedText stdout stderr).toList

/-! ## Permissive UTF-8 decoding — Python `bytes.decode("utf-8", errors="replace")`

Valid sequences decode to their scalar value; each maximal invalid
subpart is replaced by one U+FFFD, as CPython does. -/

/-- The U+FFFD replacement character. -/
def replChar : Char := Char.ofNat 0xFFFD

/-- Whether a byte is a UTF-8 continuation byte. -/
def isCont (b : UInt8) : Bool := 0x80 ≤ b && b ≤ 0xBF

/-- Lower bound of the admissible first continuation byte for a lead. -/
def cont1Lo (lead : UInt8) : UInt8 :=
  if lead == 0xE0 then 0xA0 else if lead == 0xF0 then 0x90 else 0x80

/-- Upper bound of the admissible first continuation byte for a lead. -/
def cont1Hi (lead : UInt8) : UInt8 :=
  if lead == 0xED then 0x9F else if lead == 0xF4 then 0x8F else 0xBF

/-- Decode one UTF-8 sequence led by `b`: the resulting character (U+FFFD
for an invalid subpart) and how many continuation bytes of `rest` the
sequence consumed. -/
def utf8Step (b : UInt8) (rest : List UInt8) : Char × Nat :=
  if b ≤ 0x7F then (Char.ofNat b.toNat, 0)
  else if b < 0xC2 || 0xF4 < b then (replChar, 0)
  else if b ≤ 0xDF then
    match rest with
    | c1 :: _ =>
      if cont1Lo b ≤ c1 && c1 ≤ cont1Hi b then
        (Char.ofNat ((b.toNat - 0xC0) * 64 + (c1.toNat - 0x80)), 1)
      else (replChar, 0)
    | [] => (replChar, 0)
  else if b ≤ 0xEF then
    match rest with
    | c1 :: c2 :: _ =>
      if cont1Lo b ≤ c1 && c1 ≤ cont1Hi b then
        if isCont c2 then
          (Char.ofNat ((b.toNat - 0xE0) * 4096 + (c1.toNat - 0x80) * 64 + (c2.toNat - 0x80)), 2)
        else (replChar, 1)
      else (replChar, 0)
    | [c1] => if cont1Lo b ≤ c1 && c1 ≤ cont1Hi b then (replChar, 1) else (replChar, 0)
    | [] => (replChar, 0)
  else
    match rest with
    | c1 :: c2 :: c3 :: _ =>
      if cont1Lo b ≤ c1 && c1 ≤ cont1Hi b then
        if isCont c2 then
          if isCont c3 then
            (Char.ofNat ((b.toNat - 0xF0) * 262144 + (c1.toNat - 0x80) * 4096
                + (c2.toNat - 0x80) * 64 + (c3.toNat - 0x80)), 3)
          else (replChar, 2)
        else (replChar, 1)
      else (replChar, 0)
    | [c1, c2] =>
      if cont1Lo b ≤ c1 && c1 ≤ cont1Hi b then
        if isCont c2 then (replChar, 2) else (replChar, 1)
      else (replChar, 0)
    | [c1] => if cont1Lo b ≤ c1 && c1 ≤ cont1Hi b then (replChar, 1) else (replChar, 0)
    | [] => (replChar, 0)

/-- Fuel-indexed decoding loop; the fuel is an upper bound on the number
of sequences left, so it never runs out when it starts at the byte
count. -/
def decodeUtf8Go : Nat → List UInt8 → List Char
  | _, [] => []
  | 0, _ :: _ => []
  | fuel + 1, b :: rest =>
    let s := utf8Step b rest
    s.1 :: decodeUtf8Go fuel (rest.drop s.2)

/-- Decode UTF-8 bytes, replacing each maximal invalid subpart by U+FFFD. -/
def decodeUtf8Replace (bs : List UInt8) : List Char :=
  decodeUtf8Go bs.length bs

/-! ## Adapter model — `neurones/adapters/base.py`

One structure holds the constructor parameters of `AgentAdapter` together
with the per-subclass identity and stderr filter.  `build_command` is
per-subclass and embedded separately below. -/

structure Adapter where
  name : String
  binaryPath : String
  timeout : Int := 300
  autoApprove : Bool := true
  defaultModel : Option String := none
  extraArgs : List String := []
  filterStderr : String → String := fun s => s

/-- Method `AgentAdapter.parse_output` of `base.py`, lines 49–63: decode
permissively, strip, filter stderr, detect rate limiting, and set
`success` to `returncode == 0 and not rate_limited`. -/
def parseOutput (a : Adapter) (stdout stderr : List UInt8) (returncode : Int) : AgentResult :=
  let output := pyStrip (String.mk (decodeUtf8Replace stdout))
  let err := a.filterStderr (pyStrip (String.mk (decodeUtf8Replace stderr)))
  let rateLimited := isRateLimited output err returncode
  { agentName := a.name
    output := output
    success := (returncode == 0) && !rateLimited
    returncode := returncode
    stderr := err
    rateLimited := rateLimited }

/-! ## Executor — `neurones/core/executor.py`

`_execute_once` spawns a subprocess and either parses its output, maps a
timeout to a canonical failed result, or maps any other exception to
`AgentResult.from_error`.  The outcome of each spawn is external
input, given by an oracle `exec : Nat → ExecOutcome` (attempt number to
outcome).  `run_single` returns the final result together with the number
of spawns and the list of back-off delays slept, in order. -/

inductive ExecOutcome where
  | completed (stdout stderr : List UInt8) (returncode : Int)
  | timedOut
  | errored (msg : String)

/-- Method `AgentExecutor._execute_once` of `executor.py`, lines 82–124,
with the subprocess interaction abstracted into the `ExecOutcome`. -/
def executeOnce (a : Adapter) (agentName : String) : ExecOutcome → AgentResult
  | ExecOutcome.completed stdout stderr rc => parseOutput a stdout stderr rc
  | ExecOutcome.timedOut =>
    { agentName := agentName
      output := ""
      success := false
      returncode := -1
      stderr := "Agent timed out after " ++ toString a.timeout ++ "s" }
  | ExecOutcome.errored msg => AgentResult.fromError agentName msg

/-- Retry-policy fields read from `AppConfig` by `AgentExecutor.__init__`. -/
structure ExecConfig where
  maxRetries : Nat := 3
  retryBaseDelay : ℚ := 5
  retryMaxDelay : ℚ := 60

/-- Method `AgentExecutor._compute_delay` of `executor.py`, lines 69–80:
the server's retry-after value if present, else exponential backoff, both
capped at `retry_max_delay`. -/
def computeDelay (cfg : ExecConfig) (attempt : Nat) (lastResult : Option AgentResult) : ℚ :=
  match lastResult with
  | some last =>
    match extractRetryAfter last.output last.stderr with
    | some serverDelay => min serverDelay cfg.retryMaxDelay
    | none => min (cfg.retryBaseDelay * 2 ^ (attempt - 1)) cfg.retryMaxDelay
  | none => min (cfg.retryBaseDelay * 2 ^ (attempt - 1)) cfg.retryMaxDelay

/-- Final result of a `run_single` call plus the trace of its effects:
how many times the process-spawn primitive ran and which delays were
slept before retries. -/
structure RunTrace where
  result : AgentResult
  spawns : Nat
  delays : List ℚ
deriving Repr

/-- Retry iterations of `run_single` for attempts ≥ 1: `fuel` is the number
of loop iterations left (`max_retries + 1 - attempt`), `last` the previous
rate-limited result.  When the loop ends without a non-rate-limited result,
the last result is returned with `retries = max_retries`. -/
def runSingleGo (cfg : ExecConfig) (a : Adapter) (agentName : String)
    (exec : Nat → ExecOutcome) (attempt : Nat) (last : AgentResult) : Nat → RunTrace
  | 0 => ⟨{ last with retries := cfg.maxRetries }, 0, []⟩
  | fuel + 1 =>
    let d := computeDelay cfg attempt (some last)
    let r := executeOnce a agentName (exec attempt)
    if !r.rateLimited then
      ⟨{ r with retries := attempt }, 1, [d]⟩
    else
      let t := runSingleGo cfg a agentName exec (attempt + 1) r fuel
      ⟨t.result, t.spawns + 1, d :: t.delays⟩

/-- The retry loop of `AgentExecutor.run_single` (`executor.py`, lines
36–67) for a known agent: attempt 0 runs without delay; rate-limited
attempts are retried up to `max_retries` times. -/
def runSingleKnown (cfg : ExecConfig) (a : Adapter) (agentName : String)
    (exec : Nat → ExecOutcome) : RunTrace :=
  let r0 := executeOnce a agentName (exec 0)
  if !r0.rateLimited then
    ⟨{ r0 with retries := 0 }, 1, []⟩
  else
    let t := runSingleGo cfg a agentName exec 1 r0 cfg.maxRetries
    ⟨t.result, t.spawns + 1, t.delays⟩

/-- Method `AgentExecutor.run_single` of `executor.py`, lines 24–67,
including the unknown-agent lookup guard of lines 26–28. -/
def runSingle (adapters : List (String × Adapter)) (cfg : ExecConfig)
    (agentName : String) (exec : Nat → ExecOutcome) : RunTrace :=
  match adapters.lookup agentName with
  | none => ⟨AgentResult.fromError agentName ("Unknown agent: " ++ agentName), 0, []⟩
  | some a => runSingleKnown cfg a agentName exec

/-! ## `run_parallel` — `executor.py`, lines 126–143

`asyncio.gather(..., return_exceptions=True)` yields, per task and in task
order, either that task's `AgentResult` or the exception it raised; the
loop converts exceptions to failed results tagged with the task's agent
name (`tasks[i][0] if i < len(tasks) else "unknown"`). -/

inductive GatherOutcome where
  | res (r : AgentResult)
  | exn (msg : String)

/-- The agent name used for a failed gather slot. -/
def gatherName (tasks : List (String × String)) (i : Nat) : String :=
  match tasks.get? i with
  | some t => t.1
  | none => "unknown"

/-- The processing loop of `run_parallel`, indexed from `i`. -/
def processGatherFrom (tasks : List (String × String)) :
    Nat → List GatherOutcome → List AgentResult
  | _, [] => []
  | i, GatherOutcome.res r :: rest => r :: processGatherFrom tasks (i + 1) rest
  | i, GatherOutcome.exn e :: rest =>
    AgentResult.fromError (gatherName tasks i) e :: processGatherFrom tasks (i + 1) rest

/-- Method `AgentExecutor.run_parallel`, with the gather outcomes as an
explicit argument (one per task, in task order). -/
def runParallel (tasks : List (String × String)) (outcomes : List GatherOutcome) :
    List AgentResult :=
  processGatherFrom tasks 0 outcomes

/-! ## Command building — `adapters/claude.py`, `adapters/codex.py`, `adapters/gemini.py`

`build_command` keyword options; `none` stands for Python's `None`
default.  Pythonic truthiness is preserved: a model or system prompt
counts only when non-empty, `max_turns` only when non-zero. -/

structure BuildOpts where
  jsonOutput : Bool := false
  model : Option String := none
  autoApprove : Option Bool := none
  systemPrompt : Option String := none
  maxTurns : Option Int := none

/-- Python `x or y` on optional strings: `x` when truthy, else `y`. -/
def strOr (x y : Option String) : Option String :=
  match x with
  | some s => if s.isEmpty then y else some s
  | none => y

/-- Pythonic truthiness guard on an optional string (`if s:`). -/
def optNonEmpty (x : Option String) : Option String :=
  match x with
  | some s => if s.isEmpty then none else some s
  | none => none

/-- Method `ClaudeAdapter.build_command` of `claude.py`, lines 15–39. -/
def claudeBuildCommand (a : Adapter) (prompt : String) (opts : BuildOpts) : List String :=
  [a.binaryPath, "-p", prompt]
    ++ (if opts.jsonOutput then ["--output-format", "json"] else [])
    ++ (match optNonEmpty (strOr opts.model a.defaultModel) with
        | some m => ["--model", m]
        | none => [])
    ++ (if opts.autoApprove.getD a.autoApprove then ["--permission-mode", "dontAsk"] else [])
    ++ (match optNonEmpty opts.systemPrompt with
        | some s => ["--append-system-prompt", s]
        | none => [])
    ++ (match opts.maxTurns with
        | some n => if n ≠ 0 then ["--max-turns", toString n] else []
        | none => [])
    ++ a.extraArgs

/-- Method `CodexAdapter.build_command` of `codex.py`, lines 15–35; the
prompt is the final positional argument. -/
def codexBuildCommand (a : Adapter) (prompt : String) (opts : BuildOpts) : List String :=
  [a.binaryPath, "exec"]
    ++ (match optNonEmpty (strOr opts.model a.defaultModel) with
        | some m => ["-m", m]
        | none => [])
    ++ (if opts.autoApprove.getD a.autoApprove then ["--full-auto"] else [])
    ++ (if opts.jsonOutput then ["--json"] else [])
    ++ a.extraArgs
    ++ [prompt]

/-- Method `GeminiAdapter.build_command` of `gemini.py`, lines 15–35; the
prompt is the final positional argument. -/
def geminiBuildCommand (a : Adapter) (prompt : String) (opts : BuildOpts) : List String :=
  [a.binaryPath]
    ++ (if opts.jsonOutput then ["--output-format", "json"] else [])
    ++ (match optNonEmpty (strOr opts.model a.defaultModel) with
        | some m => ["-m", m]
        | none => [])
    ++ (if opts.autoApprove.getD a.autoApprove then ["-y"] else [])
    ++ a.extraArgs
    ++ [prompt]

/-! ## Orchestrator — `neurones/core/orchestrator.py`

`Orchestrator.run` is modelled from the point where `_analyze` has
produced either a delegation plan or an error (`analysis`): the analysis
step itself is one further `run_single` call on the primary whose prompt
is the fixed orchestration system prompt with the user request appended —
never the bare user prompt.  Executor interactions are oracles
(`runSingleO`, `runParallelO`) and every executor call made is recorded,
in order, in the returned trace. -/

structure Subtask where
  agent : String
  prompt : Option String

structure Plan where
  delegate : Bool
  subtasks : List Subtask := []
  selfTask : Option String := none

inductive OrchCall where
  | single (agent : String) (prompt : String)
  | parallel (tasks : List (String × String))
deriving Repr, DecidableEq

/-- Method `Orchestrator._primary_is_coordinator_only`: the policy is fixed
to the agent identity "claude". -/
def primaryIsCoordinatorOnly (primary : String) : Bool :=
  primary == "claude"

/-- Method `Orchestrator._build_worker_fallback_tasks` of
`orchestrator.py`, lines 161–167: the unmodified prompt for every adapter
other than the primary. -/
def buildWorkerFallbackTasks (adapterNames : List String) (primary : String)
    (prompt : String) : List (String × String) :=
  (adapterNames.filter fun a => a != primary).map fun a => (a, prompt)

/-- Method `Orchestrator._build_dispatch_tasks` of `orchestrator.py`,
lines 169–188: drop subtasks with a missing/blank prompt, an unavailable
agent, or (for a coordinator-only primary) the primary itself. -/
def buildDispatchTasks (primary : String) (adapterNames : List String)
    (subtasks : List Subtask) : List (String × String) :=
  subtasks.filterMap fun st =>
    match st.prompt with
    | none => none
    | some p =>
      if (pyStrip p).isEmpty then none
      else if !(adapterNames.contains st.agent) then none
      else if primaryIsCoordinatorOnly primary && st.agent == primary then none
      else some (st.agent, p)

/-- Python `"\n".join(parts)`. -/
def pyJoin (sep : String) : List String → String
  | [] => ""
  | [x] => x
  | x :: y :: ys => x ++ sep ++ pyJoin sep (y :: ys)

/-- Method `Orchestrator._build_synthesis_prompt` of `orchestrator.py`,
lines 231–243. -/
def buildSynthesisPrompt (originalPrompt : String) (results : List AgentResult) : String :=
  pyJoin "\n"
    (("ORIGINAL TASK: " ++ originalPrompt ++ "\n\nRESULTS FROM AGENTS:\n")
      :: (results.map (fun r =>
            "--- " ++ r.agentName.toUpper ++ " [" ++ statusLabel r ++ "] ---\n" ++ r.output ++ "\n")
          ++ ["\nSynthesize these results into a single, coherent response. Merge complementary information, resolve conflicts, and present the best unified answer."]))

/-- The fatal error raised when a coordinator-only primary has no worker. -/
def noWorkerError : String :=
  "No worker agents available for coordinator-only primary"

/-- The worker-broadcast fallback block of `Orchestrator.run` (repeated at
lines 83–91 and 105–113): broadcast to all non-primary adapters, then one
synthesis call on the primary, or a fatal error when no worker exists. -/
def workerFallbackFlow (primary : String) (adapterNames : List String) (prompt : String)
    (runSingleO : String → String → AgentResult)
    (runParallelO : List (String × String) → List AgentResult) :
    Except String String × List OrchCall :=
  let tasks := buildWorkerFallbackTasks adapterNames primary prompt
  if tasks.isEmpty then (Except.error noWorkerError, [])
  else
    let results := runParallelO tasks
    let sp := buildSynthesisPrompt prompt results
    let final := runSingleO primary sp
    (Except.ok final.output, [OrchCall.parallel tasks, OrchCall.single primary sp])

/-- Steps 2–4 of `Orchestrator.run` (dispatch, optional self-task,
synthesis), lines 139–155. -/
def dispatchAndSynthesize (primary : String) (prompt : String) (plan : Plan)
    (tasks : List (String × String))
    (runSingleO : String → String → AgentResult)
    (runParallelO : List (String × String) → List AgentResult) :
    Except String String × List OrchCall :=
  let results := runParallelO tasks
  let selfTaskRun : Option String :=
    match plan.selfTask with
    | some st =>
      if !st.isEmpty && !(primaryIsCoordinatorOnly primary) then some st else none
    | none => none
  let results2 :=
    match selfTaskRun with
    | some st => results ++ [runSingleO primary st]
    | none => results
  let selfEvents :=
    match selfTaskRun with
    | some st => [OrchCall.single primary st]
    | none => []
  let sp := buildSynthesisPrompt prompt results2
  let final := runSingleO primary sp
  (Except.ok final.output, [OrchCall.parallel tasks] ++ selfEvents ++ [OrchCall.single primary sp])

/-- Method `Orchestrator.run` of `orchestrator.py`, lines 69–155, from the
completion of the analysis step onwards. -/
def orchestratorRun (primary : String) (adapterNames : List String) (prompt : String)
    (analysis : Except String Plan)
    (runSingleO : String → String → AgentResult)
    (runParallelO : List (String × String) → List AgentResult) :
    Except String String × List OrchCall :=
  match analysis with
  | Except.error _ =>
    if primaryIsCoordinatorOnly primary then
      workerFallbackFlow primary adapterNames prompt runSingleO runParallelO
    else
      let result := runSingleO primary prompt
      (Except.ok result.output, [OrchCall.single primary prompt])
  | Except.ok plan =>
    if !plan.delegate then
      if primaryIsCoordinatorOnly primary then
        workerFallbackFlow primary adapterNames prompt runSingleO runParallelO
      else
        let result := runSingleO primary prompt
        (Except.ok result.output, [OrchCall.single primary prompt])
    else
      let tasks0 := buildDispatchTasks primary adapterNames plan.subtasks
      if tasks0.isEmpty then
        if primaryIsCoordinatorOnly primary then
          let tasks := buildWorkerFallbackTasks adapterNames primary prompt
          if tasks.isEmpty then (Except.error noWorkerError, [])
          else dispatchAndSynthesize primary prompt plan tasks runSingleO runParallelO
        else
          let result := runSingleO primary prompt
          (Except.ok result.output, [OrchCall.single primary prompt])
      else dispatchAndSynthesize primary prompt plan tasks0 runSingleO runParallelO

/-! ## Theorems -/

/-- Claim C1, counterexample.  The spec's derivation table is wrong on two
points: `status_label` tests `success` before `rate_limited`, so a
successful rate-limited result is labeled SUCCESS, not RATE_LIMITED; and
an unsuccessful non-rate-limited result whose stderr contains "timeout"
(without the canonical "timed out" wording) is labeled TIMEOUT, not
FAILED. -/
theorem statusLabel_spec_table_counterexample :
    (let r1 : AgentResult :=
      { agentName := "a", output := "", success := true, returncode := 0,
        stderr := "", rateLimited := true, retries := 0 }
     r1.rateLimited = true ∧ statusLabel r1 = "SUCCESS" ∧ statusLabel r1 ≠ "RATE_LIMITED")
  ∧ (let r2 : AgentResult :=
      { agentName := "a", output := "", success := false, returncode := 1,
        stderr := "request timeout", rateLimited := false, retries := 0 }
     r2.success = false ∧ r2.rateLimited = false
       ∧ strContains (pyLower r2.stderr) "timed out" = false
       ∧ statusLabel r2 = "TIMEOUT" ∧ statusLabel r2 ≠ "FAILED") := by
  decide

/-- Claim C1, amended: the derivation table of `status_label` with the
code's actual precedence.  Success is checked first (success with
retries=2 yields "SUCCESS (retried 2x)", with retries=0 yields "SUCCESS",
regardless of the rate-limited flag); an unsuccessful rate-limited result
yields "RATE_LIMITED"; an unsuccessful non-rate-limited result whose
lowercased stderr contains "timed out" or "timeout" yields "TIMEOUT";
any other unsuccessful result yields "FAILED". -/
theorem statusLabel_derivation_table :
    (∀ r : AgentResult, r.success = true → r.retries = 2 →
      statusLabel r = "SUCCESS (retried 2x)")
  ∧ (∀ r : AgentResult, r.success = true → r.retries = 0 →
      statusLabel r = "SUCCESS")
  ∧ (∀ r : AgentResult, r.success = false → r.rateLimited = true →
      statusLabel r = "RATE_LIMITED")
  ∧ (∀ r : AgentResult, r.success = false → r.rateLimited = false →
      (strContains (pyLower r.stderr) "timed out" = true
        ∨ strContains (pyLower r.stderr) "timeout" = true) →
      statusLabel r = "TIMEOUT")
  ∧ (∀ r : AgentResult, r.success = false → r.rateLimited = false →
      strContains (pyLower r.stderr) "timed out" = false →
      strContains (pyLower r.stderr) "timeout" = false →
      statusLabel r = "FAILED") := by
  refine ⟨?_, ?_, ?_, ?_, ?_⟩
  · intro r hs hr
    simp [statusLabel, hs, hr]
    rfl
  · intro r hs hr
    simp [statusLabel, hs, hr]
  · intro r hs hr
    simp [statusLabel, hs, hr]
  · intro r hs hr hc
    rcases hc with hc | hc <;> simp [statusLabel, hs, hr, hc]
  · intro r hs hr h1 h2
    simp [statusLabel, hs, hr, h1, h2]

/-- Claim C1, witness for the amended derivation table at concrete
results. -/
theorem statusLabel_derivation_table_witness :
    statusLabel { agentName := "a", output := "", success := true, retries := 2 }
        = "SUCCESS (retried 2x)"
  ∧ statusLabel { agentName := "a", output := "", success := true }
        = "SUCCESS"
  ∧ statusLabel { agentName := "a", output := "", success := false, rateLimited := true }
        = "RATE_LIMITED"
  ∧ statusLabel { agentName := "a", output := "", success := false, stderr := "Agent timed out after 300s" }
        = "TIMEOUT"
  ∧ statusLabel { agentName := "a", output := "", success := false, stderr := "exit 1" }
        = "FAILED" :=
  ⟨statusLabel_derivation_table.1 _ rfl rfl,
   statusLabel_derivation_table.2.1 _ rfl rfl,
   statusLabel_derivation_table.2.2.1 _ rfl rfl,
   statusLabel_derivation_table.2.2.2.1 _ rfl rfl (Or.inl (by decide)),
   statusLabel_derivation_table.2.2.2.2 _ rfl rfl (by decide) (by decide)⟩

/-- Claim C9: for an unsuccessful, non-rate-limited result the label is
TIMEOUT exactly when the lowercased stderr contains "timed out" or
"timeout"; in particular "timeout" alone suffices. -/
theorem statusLabel_timeout_iff (r : AgentResult)
    (hs : r.success = false) (hr : r.rateLimited = false) :
    statusLabel r = "TIMEOUT"
      ↔ (strContains (pyLower r.stderr) "timed out" = true
          ∨ strContains (pyLower r.stderr) "timeout" = true) := by
  by_cases h1 : strContains (pyLower r.stderr) "timed out" = true
  · simp [statusLabel, hs, hr, h1]
  · by_cases h2 : strContains (pyLower r.stderr) "timeout" = true
    · simp [statusLabel, hs, hr, h2]
    · simp [statusLabel, hs, hr, h1, h2]

/-- Claim C9, witness: a result whose stderr says "timeout" but not
"timed out" is labeled TIMEOUT. -/
theorem statusLabel_timeout_iff_witness :
    statusLabel { agentName := "a", output := "", success := false,
                  returncode := 1, stderr := "connection timeout" } = "TIMEOUT" :=
  (statusLabel_timeout_iff _ rfl rfl).mpr (Or.inr (by decide))

/-- Claim C6: `is_rate_limited` is true exactly when some fixed rate-limit
pattern matches the concatenation of stdout and stderr, and the exit code
has no influence on the outcome. -/
theorem isRateLimited_iff (stdout stderr : String) (rc : Int) :
    (isRateLimited stdout stderr rc = true
      ↔ ∃ p ∈ RATE_LIMIT_PATTERNS, rsearch p (stdout ++ "\n" ++ stderr).toList = true)
  ∧ ∀ rc' : Int, isRateLimited stdout stderr rc = isRateLimited stdout stderr rc' := by
  constructor
  · simp [isRateLimited, combinedText, List.any_eq_true]
  · intro rc'
    rfl

/-- Default-configured adapter used by concrete witnesses. -/
def defaultAdapter : Adapter :=
  { name := "claude", binaryPath := "/usr/bin/claude" }

/-- Claim C10: `parse_output` (with the base class's identity stderr
filter) yields success exactly when the exit code is zero and the result
is not rate-limited, and its output and stderr fields are the
whitespace-trimmed permissive decodings of the input bytes.  The function
is total, so no byte sequence can make it raise. -/
theorem parseOutput_spec (a : Adapter) (stdout stderr : List UInt8) (rc : Int)
    (hf : a.filterStderr = fun s => s) :
    ((parseOutput a stdout stderr rc).success = true
      ↔ rc = 0 ∧ (parseOutput a stdout stderr rc).rateLimited = false)
  ∧ (parseOutput a stdout stderr rc).output = pyStrip (String.mk (decodeUtf8Replace stdout))
  ∧ (parseOutput a stdout stderr rc).stderr = pyStrip (String.mk (decodeUtf8Replace stderr)) := by
  refine ⟨?_, rfl, by simp [parseOutput, hf]⟩
  simp [parseOutput, Bool.and_eq_true, beq_iff_eq, Bool.not_eq_true']

/-- Claim C10, witness at concrete bytes (stdout "429 hit", empty stderr,
exit code 1). -/
theorem parseOutput_spec_witness :
    ((parseOutput defaultAdapter [0x34, 0x32, 0x39] [] 1).success = true
      ↔ (1 : Int) = 0 ∧ (parseOutput defaultAdapter [0x34, 0x32, 0x39] [] 1).rateLimited = false)
  ∧ (parseOutput defaultAdapter [0x34, 0x32, 0x39] [] 1).output
      = pyStrip (String.mk (decodeUtf8Replace [0x34, 0x32, 0x39]))
  ∧ (parseOutput defaultAdapter [0x34, 0x32, 0x39] [] 1).stderr
      = pyStrip (String.mk (decodeUtf8Replace [])) :=
  parseOutput_spec defaultAdapter [0x34, 0x32, 0x39] [] 1 rfl

/-- Claim C7: `run_single` on an agent name absent from the adapter
mapping immediately returns a failed result naming the unknown agent,
with zero retries, zero process spawns and no retry delay. -/
theorem runSingle_unknown_agent (adapters : List (String × Adapter)) (cfg : ExecConfig)
    (agentName : String) (exec : Nat → ExecOutcome)
    (h : adapters.lookup agentName = none) :
    runSingle adapters cfg agentName exec =
      ⟨{ agentName := agentName, output := "", success := false, returncode := -1,
         stderr := "Unknown agent: " ++ agentName, rateLimited := false, retries := 0 },
       0, []⟩ := by
  simp [runSingle, h, AgentResult.fromError]

/-- Claim C7, witness: empty adapter mapping, agent "mistral". -/
theorem runSingle_unknown_agent_witness :
    runSingle [] { } "mistral" (fun _ => ExecOutcome.timedOut) =
      ⟨{ agentName := "mistral", output := "", success := false, returncode := -1,
         stderr := "Unknown agent: mistral", rateLimited := false, retries := 0 },
       0, []⟩ :=
  runSingle_unknown_agent [] { } "mistral" (fun _ => ExecOutcome.timedOut) rfl

/-- Length of the `run_parallel` processing loop output. -/
theorem processGatherFrom_length (tasks : List (String × String)) :
    ∀ (outcomes : List GatherOutcome) (i : Nat),
      (processGatherFrom tasks i outcomes).length = outcomes.length := by
  intro outcomes
  induction outcomes with
  | nil => intro i; rfl
  | cons o rest ih =>
    intro i
    cases o <;> simp [processGatherFrom, ih]

/-- Element-wise description of the `run_parallel` processing loop. -/
theorem processGatherFrom_get (tasks : List (String × String)) :
    ∀ (outcomes : List GatherOutcome) (i j : Nat),
      (processGatherFrom tasks i outcomes).get? j =
        (outcomes.get? j).map fun o =>
          match o with
          | GatherOutcome.res r => r
          | GatherOutcome.exn e => AgentResult.fromError (gatherName tasks (i + j)) e := by
  intro outcomes
  induction outcomes with
  | nil => intro i j; cases j <;> rfl
  | cons o rest ih =>
    intro i j
    cases j with
    | zero => cases o <;> rfl
    | succ j =>
      have e : i + (j + 1) = i + 1 + j := by omega
      cases o <;> simp only [processGatherFrom, List.get?_cons_succ] <;> rw [e] <;>
        exact ih (i + 1) j

/-- Claim C4: `run_parallel` returns one result per input task, in input
order; a slot whose concurrency primitive produced an exception becomes a
failed result carrying that task's agent name, without affecting any
other slot.  The processing never raises (it is a total function). -/
theorem runParallel_spec (tasks : List (String × String)) (outcomes : List GatherOutcome)
    (h : outcomes.length = tasks.length) :
    (runParallel tasks outcomes).length = tasks.length
  ∧ (∀ i r, outcomes.get? i = some (GatherOutcome.res r) →
      (runParallel tasks outcomes).get? i = some r)
  ∧ (∀ i e, outcomes.get? i = some (GatherOutcome.exn e) →
      ∃ t, tasks.get? i = some t
        ∧ (runParallel tasks outcomes).get? i = some (AgentResult.fromError t.1 e)
        ∧ (AgentResult.fromError t.1 e).success = false
        ∧ (AgentResult.fromError t.1 e).agentName = t.1) := by
  refine ⟨by simp [runParallel, processGatherFrom_length, h], ?_, ?_⟩
  · intro i r hr
    rw [runParallel, processGatherFrom_get, hr]
    rfl
  · intro i e he
    have hi' : i < outcomes.length := by
      by_contra hle
      rw [List.get?_eq_none.mpr (Nat.le_of_not_lt hle)] at he
      exact Option.noConfusion he
    have hi : i < tasks.length := h ▸ hi'
    refine ⟨tasks.get ⟨i, hi⟩, List.get?_eq_get hi, ?_, rfl, rfl⟩
    rw [runParallel, processGatherFrom_get, he]
    simp [gatherName, List.getElem?_eq_getElem hi]

/-- Claim C4, witness: two tasks, the first succeeding and the second
failing with an exception. -/
theorem runParallel_spec_witness :
    (runParallel [("claude", "p1"), ("codex", "p2")]
        [GatherOutcome.res { agentName := "claude", output := "ok", success := true },
         GatherOutcome.exn "boom"]).length = 2
  ∧ (runParallel [("claude", "p1"), ("codex", "p2")]
        [GatherOutcome.res { agentName := "claude", output := "ok", success := true },
         GatherOutcome.exn "boom"]).get? 1
      = some (AgentResult.fromError "codex" "boom") := by
  have h := runParallel_spec [("claude", "p1"), ("codex", "p2")]
    [GatherOutcome.res { agentName := "claude", output := "ok", success := true },
     GatherOutcome.exn "boom"] rfl
  refine ⟨h.1, ?_⟩
  have := h.2.2 1 "boom" rfl
  rcases this with ⟨t, ht, hr, _, _⟩
  have h2 : ("codex", "p2") = t := by
    simpa using ht
  rw [← h2] at hr
  exact hr

/-- A result produced by `_execute_once` that is rate-limited is never
successful: `parse_output` sets `success = returncode == 0 and not
rate_limited`, and the timeout and error results are unsuccessful with
`rate_limited = False`. -/
theorem executeOnce_rateLimited_not_success (a : Adapter) (name : String) (o : ExecOutcome)
    (h : (executeOnce a name o).rateLimited = true) :
    (executeOnce a name o).success = false := by
  cases o with
  | completed out err rc =>
    simp only [executeOnce, parseOutput] at h ⊢
    simp [h]
  | timedOut => simp [executeOnce] at h
  | errored msg => simp [executeOnce, AgentResult.fromError] at h

/-- Retry loop, successful exit: if the next `k` attempts starting at
`attempt` are rate-limited and attempt `attempt + k` is not, the loop
returns that attempt's result with `retries = attempt + k` after `k + 1`
further spawns. -/
theorem runSingleGo_success (cfg : ExecConfig) (a : Adapter) (name : String)
    (exec : Nat → ExecOutcome) :
    ∀ (k fuel attempt : Nat) (last : AgentResult), k < fuel →
      (∀ i, i < k → (executeOnce a name (exec (attempt + i))).rateLimited = true) →
      (executeOnce a name (exec (attempt + k))).rateLimited = false →
      (runSingleGo cfg a name exec attempt last fuel).result
          = { executeOnce a name (exec (attempt + k)) with retries := attempt + k }
        ∧ (runSingleGo cfg a name exec attempt last fuel).spawns = k + 1 := by
  intro k
  induction k with
  | zero =>
    intro fuel attempt last hk hrl hok
    match fuel, hk with
    | f + 1, _ =>
      rw [Nat.add_zero] at hok
      simp [runSingleGo, hok]
  | succ k ih =>
    intro fuel attempt last hk hrl hok
    match fuel, hk with
    | f + 1, hk =>
      have h0 : (executeOnce a name (exec attempt)).rateLimited = true := by
        simpa using hrl 0 (Nat.succ_pos k)
      have hrl' : ∀ i, i < k →
          (executeOnce a name (exec (attempt + 1 + i))).rateLimited = true := by
        intro i hi
        have := hrl (i + 1) (Nat.succ_lt_succ hi)
        simpa [show attempt + (i + 1) = attempt + 1 + i by omega] using this
      have hok' : (executeOnce a name (exec (attempt + 1 + k))).rateLimited = false := by
        simpa [show attempt + 1 + k = attempt + (k + 1) by omega] using hok
      have IH := ih f (attempt + 1) (executeOnce a name (exec attempt))
        (Nat.lt_of_succ_lt_succ hk) hrl' hok'
      rw [show attempt + 1 + k = attempt + (k + 1) by omega] at IH
      simp [runSingleGo, h0, IH.1, IH.2]

/-- Retry loop, exhaustion: if every attempt the remaining fuel allows is
rate-limited (as is the rate-limited `last` result), the loop returns a
rate-limited unsuccessful result with `retries = max_retries` after
spending all its fuel on spawns. -/
theorem runSingleGo_exhausted (cfg : ExecConfig) (a : Adapter) (name : String)
    (exec : Nat → ExecOutcome) :
    ∀ (fuel attempt : Nat) (last : AgentResult),
      (∀ i, i < fuel → (executeOnce a name (exec (attempt + i))).rateLimited = true) →
      last.rateLimited = true → last.success = false →
      (runSingleGo cfg a name exec attempt last fuel).result.retries = cfg.maxRetries
        ∧ (runSingleGo cfg a name exec attempt last fuel).result.rateLimited = true
        ∧ (runSingleGo cfg a name exec attempt last fuel).result.success = false
        ∧ (runSingleGo cfg a name exec attempt last fuel).spawns = fuel := by
  intro fuel
  induction fuel with
  | zero =>
    intro attempt last _ hrl hs
    simp [runSingleGo, hrl, hs]
  | succ f ih =>
    intro attempt last hfuel hrl hs
    have h0 : (executeOnce a name (exec attempt)).rateLimited = true := by
      simpa using hfuel 0 (Nat.succ_pos f)
    have hsucc : (executeOnce a name (exec attempt)).success = false :=
      executeOnce_rateLimited_not_success a name (exec attempt) h0
    have hfuel' : ∀ i, i < f →
        (executeOnce a name (exec (attempt + 1 + i))).rateLimited = true := by
      intro i hi
      have := hfuel (i + 1) (Nat.succ_lt_succ hi)
      simpa [show attempt + (i + 1) = attempt + 1 + i by omega] using this
    have IH := ih (attempt + 1) (executeOnce a name (exec attempt)) hfuel' h0 hsucc
    simp [runSingleGo, h0, IH.1, IH.2.1, IH.2.2.1, IH.2.2.2]

/-- Claim C2: on a known agent, (1) after N rate-limited attempts followed
by a non-rate-limited one (N ≤ max_retries), the final result has
`retries = N` and the process-spawn primitive ran N + 1 times; (2) with
`max_retries = 2` and every attempt rate-limited, the final result is
rate-limited with `retries = 2`, status label RATE_LIMITED, and 3 spawns. -/
theorem runSingle_retry_properties :
    (∀ (adapters : List (String × Adapter)) (cfg : ExecConfig) (a : Adapter)
       (name : String) (exec : Nat → ExecOutcome) (N : Nat),
       adapters.lookup name = some a →
       N ≤ cfg.maxRetries →
       (∀ i, i < N → (executeOnce a name (exec i)).rateLimited = true) →
       (executeOnce a name (exec N)).rateLimited = false →
       (runSingle adapters cfg name exec).result.retries = N
         ∧ (runSingle adapters cfg name exec).spawns = N + 1)
  ∧ (∀ (adapters : List (String × Adapter)) (cfg : ExecConfig) (a : Adapter)
       (name : String) (exec : Nat → ExecOutcome),
       adapters.lookup name = some a →
       cfg.maxRetries = 2 →
       (∀ i, (executeOnce a name (exec i)).rateLimited = true) →
       (runSingle adapters cfg name exec).result.rateLimited = true
         ∧ (runSingle adapters cfg name exec).result.retries = 2
         ∧ statusLabel (runSingle adapters cfg name exec).result = "RATE_LIMITED"
         ∧ (runSingle adapters cfg name exec).spawns = 3) := by
  constructor
  · intro adapters cfg a name exec N hl hN hrl hok
    rw [runSingle, hl]
    cases N with
    | zero =>
      simp [runSingleKnown, hok]
    | succ n =>
      have h0 : (executeOnce a name (exec 0)).rateLimited = true :=
        hrl 0 (Nat.succ_pos n)
      have hrl' : ∀ i, i < n →
          (executeOnce a name (exec (1 + i))).rateLimited = true := by
        intro i hi
        have := hrl (i + 1) (Nat.succ_lt_succ hi)
        simpa [Nat.add_comm 1 i] using this
      have hok' : (executeOnce a name (exec (1 + n))).rateLimited = false := by
        simpa [Nat.add_comm 1 n] using hok
      have H := runSingleGo_success cfg a name exec n cfg.maxRetries 1
        (executeOnce a name (exec 0)) (Nat.lt_of_succ_le hN) hrl' hok'
      simp [runSingleKnown, h0, H.1, H.2, Nat.add_comm 1 n]
  · intro adapters cfg a name exec hl hmax hrl
    rw [runSingle, hl]
    have h0 : (executeOnce a name (exec 0)).rateLimited = true := hrl 0
    have hsucc : (executeOnce a name (exec 0)).success = false :=
      executeOnce_rateLimited_not_success a name (exec 0) h0
    have H := runSingleGo_exhausted cfg a name exec cfg.maxRetries 1
      (executeOnce a name (exec 0)) (fun i _ => hrl (1 + i)) h0 hsucc
    have hlabel : statusLabel (runSingleGo cfg a name exec 1
        (executeOnce a name (exec 0)) cfg.maxRetries).result = "RATE_LIMITED" := by
      simp [statusLabel, H.2.1, H.2.2.1]
    rw [hmax] at H hlabel
    simp [runSingleKnown, h0, hmax, H.1, H.2.1, H.2.2.2, hlabel]

/-- All-rate-limited spawn oracle for witnesses: stdout "429", exit 1. -/
def execAllRL : Nat → ExecOutcome :=
  fun _ => ExecOutcome.completed [0x34, 0x32, 0x39] [] 1

/-- Spawn oracle for witnesses: attempt 0 rate-limited ("429", exit 1),
later attempts succeed ("ok", exit 0). -/
def execOneRL : Nat → ExecOutcome :=
  fun i =>
    if i = 0 then ExecOutcome.completed [0x34, 0x32, 0x39] [] 1
    else ExecOutcome.completed [0x6f, 0x6b] [] 0

/-- Claim C2, witness: one rate-limited attempt then success gives
`retries = 1` and two spawns; three rate-limited attempts with
`max_retries = 2` give a RATE_LIMITED result with three spawns. -/
theorem runSingle_retry_properties_witness :
    ((runSingle [("claude", defaultAdapter)] { } "claude" execOneRL).result.retries = 1
      ∧ (runSingle [("claude", defaultAdapter)] { } "claude" execOneRL).spawns = 2)
  ∧ ((runSingle [("claude", defaultAdapter)] { maxRetries := 2 } "claude" execAllRL).result.rateLimited = true
      ∧ (runSingle [("claude", defaultAdapter)] { maxRetries := 2 } "claude" execAllRL).result.retries = 2
      ∧ statusLabel (runSingle [("claude", defaultAdapter)] { maxRetries := 2 } "claude" execAllRL).result
          = "RATE_LIMITED"
      ∧ (runSingle [("claude", defaultAdapter)] { maxRetries := 2 } "claude" execAllRL).spawns = 3) := by
  constructor
  · exact runSingle_retry_properties.1 [("claude", defaultAdapter)] { } defaultAdapter
      "claude" execOneRL 1 rfl (by decide)
      (fun i hi => by
        have h0 : i = 0 := by omega
        subst h0
        decide)
      (by decide)
  · have hAll : (executeOnce defaultAdapter "claude"
        (ExecOutcome.completed [0x34, 0x32, 0x39] [] 1)).rateLimited = true := by
      decide
    exact runSingle_retry_properties.2 [("claude", defaultAdapter)] { maxRetries := 2 }
      defaultAdapter "claude" execAllRL rfl rfl (fun _ => hAll)

/-- Retry loop, delay trace: when the loop starts at `attempt` with the
previous attempt's result and the next `m` attempts are rate-limited, the
delay slept before attempt `attempt + m` is `_compute_delay` applied to
that attempt number and the preceding attempt's result. -/
theorem runSingleGo_delay_get (cfg : ExecConfig) (a : Adapter) (name : String)
    (exec : Nat → ExecOutcome) :
    ∀ (m fuel attempt : Nat), m < fuel → 1 ≤ attempt →
      (∀ i, i < m → (executeOnce a name (exec (attempt + i))).rateLimited = true) →
      (runSingleGo cfg a name exec attempt
          (executeOnce a name (exec (attempt - 1))) fuel).delays.get? m
        = some (computeDelay cfg (attempt + m)
            (some (executeOnce a name (exec (attempt + m - 1))))) := by
  intro m
  induction m with
  | zero =>
    intro fuel attempt hm h1 hrl
    match fuel, hm with
    | f + 1, _ =>
      by_cases h : (executeOnce a name (exec attempt)).rateLimited = true
      · simp [runSingleGo, h]
      · simp [runSingleGo, Bool.eq_false_iff.mpr h]
  | succ m ih =>
    intro fuel attempt hm h1 hrl
    match fuel, hm with
    | f + 1, hm =>
      have h0 : (executeOnce a name (exec attempt)).rateLimited = true := by
        simpa using hrl 0 (Nat.succ_pos m)
      have hrl' : ∀ i, i < m →
          (executeOnce a name (exec (attempt + 1 + i))).rateLimited = true := by
        intro i hi
        have := hrl (i + 1) (Nat.succ_lt_succ hi)
        simpa [show attempt + (i + 1) = attempt + 1 + i by omega] using this
      have IH := ih f (attempt + 1) (Nat.lt_of_succ_lt_succ hm) (by omega) hrl'
      rw [show attempt + 1 - 1 = attempt from by omega] at IH
      rw [show attempt + 1 + m = attempt + (m + 1) from by omega] at IH
      simp only [runSingleGo, h0, Bool.not_true, Bool.false_eq_true, if_false,
        List.get?_cons_succ]
      exact IH

/-- Claim C5: within one `run_single` call whose first N attempts are
rate-limited, the delay slept before retry attempt N (1 ≤ N ≤ max_retries)
is the retry-after value extracted from the previous attempt's combined
stdout and stderr capped at `retry_max_delay` when present, and otherwise
the exponential backoff `retry_base_delay * 2^(N-1)` capped at
`retry_max_delay`. -/
theorem runSingle_delay_formula (adapters : List (String × Adapter)) (cfg : ExecConfig)
    (a : Adapter) (name : String) (exec : Nat → ExecOutcome) (N : Nat)
    (hl : adapters.lookup name = some a)
    (h1 : 1 ≤ N) (h2 : N ≤ cfg.maxRetries)
    (hrl : ∀ i, i < N → (executeOnce a name (exec i)).rateLimited = true) :
    (runSingle adapters cfg name exec).delays.get? (N - 1)
      = some (match extractRetryAfter (executeOnce a name (exec (N - 1))).output
                  (executeOnce a name (exec (N - 1))).stderr with
              | some serverDelay => min serverDelay cfg.retryMaxDelay
              | none => min (cfg.retryBaseDelay * 2 ^ (N - 1)) cfg.retryMaxDelay) := by
  simp only [runSingle, hl]
  have h0 : (executeOnce a name (exec 0)).rateLimited = true := hrl 0 h1
  have hrl' : ∀ i, i < N - 1 →
      (executeOnce a name (exec (1 + i))).rateLimited = true := by
    intro i hi
    exact hrl (1 + i) (by omega)
  have H := runSingleGo_delay_get cfg a name exec (N - 1) cfg.maxRetries 1
    (by omega) le_rfl hrl'
  rw [show (1 : Nat) - 1 = 0 from rfl] at H
  rw [show 1 + (N - 1) = N from by omega] at H
  simp only [runSingleKnown, h0, Bool.not_true, Bool.false_eq_true, if_false]
  rw [H]
  cases hres : extractRetryAfter (executeOnce a name (exec (N - 1))).output
      (executeOnce a name (exec (N - 1))).stderr with
  | none => simp [computeDelay, hres]
  | some v => simp [computeDelay, hres]

/-- Spawn oracle for witnesses: every attempt rate-limited with a
retry-after hint of 7 seconds ("429 retry-after: 7", exit 1). -/
def execRetryAfterRL : Nat → ExecOutcome :=
  fun _ => ExecOutcome.completed
    [0x34, 0x32, 0x39, 0x20, 0x72, 0x65, 0x74, 0x72, 0x79, 0x2d,
     0x61, 0x66, 0x74, 0x65, 0x72, 0x3a, 0x20, 0x37] [] 1

/-- Claim C5, witness: before retry attempt 1 against an agent whose
previous output carried "retry-after: 7", the slept delay is the extracted
7-second value (capped at the 60-second maximum). -/
theorem runSingle_delay_formula_witness :
    (runSingle [("claude", defaultAdapter)] { } "claude" execRetryAfterRL).delays.get? 0
      = some (match extractRetryAfter
                  (executeOnce defaultAdapter "claude" (execRetryAfterRL 0)).output
                  (executeOnce defaultAdapter "claude" (execRetryAfterRL 0)).stderr with
              | some serverDelay => min serverDelay ({ } : ExecConfig).retryMaxDelay
              | none => min (({ } : ExecConfig).retryBaseDelay * 2 ^ (1 - 1))
                  ({ } : ExecConfig).retryMaxDelay) :=
  runSingle_delay_formula [("claude", defaultAdapter)] { } defaultAdapter "claude"
    execRetryAfterRL 1 rfl le_rfl (by decide)
    (fun i hi => by
      have h0 : i = 0 := by omega
      subst h0
      decide)

/-- Flag strings the build-command claims reason about; the hypotheses of
`buildCommand_approve_and_model` keep caller-supplied strings clear of
them so that flag occurrences in the command are exactly the ones the
builders emit. -/
def reservedFlags : List String :=
  ["--permission-mode", "--full-auto", "-y", "--model", "-m"]

/-- Claim C8: for each concrete adapter, `build_command` with explicit
`auto_approve=false` emits no approval flag, whatever the adapter's
configured default; and `build_command` with a non-empty model string
emits exactly one model flag, immediately followed by that string. -/
theorem buildCommand_approve_and_model (b prompt m : String) (ap : Bool)
    (dm : Option String)
    (hb : b ∉ reservedFlags) (hp : prompt ∉ reservedFlags)
    (hm : m ∉ reservedFlags) (hm0 : m ≠ "")
    (hdm : ∀ s, dm = some s → s ∉ reservedFlags) :
    ("--permission-mode" ∉ claudeBuildCommand
        { name := "claude", binaryPath := b, autoApprove := ap, defaultModel := dm }
        prompt { autoApprove := some false })
  ∧ ("--full-auto" ∉ codexBuildCommand
        { name := "codex", binaryPath := b, autoApprove := ap, defaultModel := dm }
        prompt { autoApprove := some false })
  ∧ ("-y" ∉ geminiBuildCommand
        { name := "gemini", binaryPath := b, autoApprove := ap, defaultModel := dm }
        prompt { autoApprove := some false })
  ∧ ((claudeBuildCommand
        { name := "claude", binaryPath := b, autoApprove := ap, defaultModel := dm }
        prompt { model := some m }).count "--model" = 1
      ∧ ∃ l1 l2, claudeBuildCommand
          { name := "claude", binaryPath := b, autoApprove := ap, defaultModel := dm }
          prompt { model := some m } = l1 ++ ["--model", m] ++ l2)
  ∧ ((codexBuildCommand
        { name := "codex", binaryPath := b, autoApprove := ap, defaultModel := dm }
        prompt { model := some m }).count "-m" = 1
      ∧ ∃ l1 l2, codexBuildCommand
          { name := "codex", binaryPath := b, autoApprove := ap, defaultModel := dm }
          prompt { model := some m } = l1 ++ ["-m", m] ++ l2)
  ∧ ((geminiBuildCommand
        { name := "gemini", binaryPath := b, autoApprove := ap, defaultModel := dm }
        prompt { model := some m }).count "-m" = 1
      ∧ ∃ l1 l2, geminiBuildCommand
          { name := "gemini", binaryPath := b, autoApprove := ap, defaultModel := dm }
          prompt { model := some m } = l1 ++ ["-m", m] ++ l2) := by
  simp only [reservedFlags, List.mem_cons, List.not_mem_nil, or_false, not_or] at hb hp hm
  obtain ⟨hb1, hb2, hb3, hb4, hb5⟩ := hb
  obtain ⟨hp1, hp2, hp3, hp4, hp5⟩ := hp
  obtain ⟨hm1, hm2, hm3, hm4, hm5⟩ := hm
  have hmE : m.isEmpty = false := by
    cases he : m.isEmpty
    · rfl
    · exact absurd ((String.isEmpty_iff m).mp he) hm0
  have hModel : optNonEmpty (strOr (some m) dm) = some m := by
    simp [strOr, optNonEmpty, hmE]
  refine ⟨?_, ?_, ?_, ?_, ?_, ?_⟩
  · rcases dm with _ | s
    · simp [claudeBuildCommand, strOr, optNonEmpty, Ne.symm hb1, Ne.symm hp1]
    · have hs := hdm s rfl
      simp only [reservedFlags, List.mem_cons, List.not_mem_nil, or_false, not_or] at hs
      by_cases hse : s.isEmpty <;>
        simp [claudeBuildCommand, strOr, optNonEmpty, hse, Ne.symm hb1, Ne.symm hp1,
          Ne.symm hs.1]
  · rcases dm with _ | s
    · simp [codexBuildCommand, strOr, optNonEmpty, Ne.symm hb2, Ne.symm hp2]
    · have hs := hdm s rfl
      simp only [reservedFlags, List.mem_cons, List.not_mem_nil, or_false, not_or] at hs
      by_cases hse : s.isEmpty <;>
        simp [codexBuildCommand, strOr, optNonEmpty, hse, Ne.symm hb2, Ne.symm hp2,
          Ne.symm hs.2.1]
  · rcases dm with _ | s
    · simp [geminiBuildCommand, strOr, optNonEmpty, Ne.symm hb3, Ne.symm hp3]
    · have hs := hdm s rfl
      simp only [reservedFlags, List.mem_cons, List.not_mem_nil, or_false, not_or] at hs
      by_cases hse : s.isEmpty <;>
        simp [geminiBuildCommand, strOr, optNonEmpty, hse, Ne.symm hb3, Ne.symm hp3,
          Ne.symm hs.2.2.1]
  · constructor
    · cases ap <;>
        simp [claudeBuildCommand, hModel, show optNonEmpty none = none from rfl,
          List.count_cons, List.count_append, hb4, hp4, hm4]
    · cases ap with
      | false =>
        exact ⟨[b, "-p", prompt], [], by simp [claudeBuildCommand, hModel, show optNonEmpty none = none from rfl]⟩
      | true =>
        exact ⟨[b, "-p", prompt], ["--permission-mode", "dontAsk"],
          by simp [claudeBuildCommand, hModel, show optNonEmpty none = none from rfl]⟩
  · constructor
    · cases ap <;>
        simp [codexBuildCommand, hModel, show optNonEmpty none = none from rfl,
          List.count_cons, List.count_append, hb5, hp5, hm5]
    · cases ap with
      | false =>
        exact ⟨[b, "exec"], [prompt], by simp [codexBuildCommand, hModel, show optNonEmpty none = none from rfl]⟩
      | true =>
        exact ⟨[b, "exec"], ["--full-auto", prompt], by simp [codexBuildCommand, hModel, show optNonEmpty none = none from rfl]⟩
  · constructor
    · cases ap <;>
        simp [geminiBuildCommand, hModel, show optNonEmpty none = none from rfl,
          List.count_cons, List.count_append, hb5, hp5, hm5]
    · cases ap with
      | false =>
        exact ⟨[b], [prompt], by simp [geminiBuildCommand, hModel, show optNonEmpty none = none from rfl]⟩
      | true =>
        exact ⟨[b], ["-y", prompt], by simp [geminiBuildCommand, hModel, show optNonEmpty none = none from rfl]⟩

/-- Claim C8, witness at a concrete binary path, prompt and model. -/
theorem buildCommand_approve_and_model_witness :
    ("--permission-mode" ∉ claudeBuildCommand
        { name := "claude", binaryPath := "/usr/bin/agent", autoApprove := true,
          defaultModel := none }
        "say hi" { autoApprove := some false })
  ∧ ("--full-auto" ∉ codexBuildCommand
        { name := "codex", binaryPath := "/usr/bin/agent", autoApprove := true,
          defaultModel := none }
        "say hi" { autoApprove := some false })
  ∧ ("-y" ∉ geminiBuildCommand
        { name := "gemini", binaryPath := "/usr/bin/agent", autoApprove := true,
          defaultModel := none }
        "say hi" { autoApprove := some false })
  ∧ ((claudeBuildCommand
        { name := "claude", binaryPath := "/usr/bin/agent", autoApprove := true,
          defaultModel := none }
        "say hi" { model := some "opus" }).count "--model" = 1
      ∧ ∃ l1 l2, claudeBuildCommand
          { name := "claude", binaryPath := "/usr/bin/agent", autoApprove := true,
            defaultModel := none }
          "say hi" { model := some "opus" } = l1 ++ ["--model", "opus"] ++ l2)
  ∧ ((codexBuildCommand
        { name := "codex", binaryPath := "/usr/bin/agent", autoApprove := true,
          defaultModel := none }
        "say hi" { model := some "opus" }).count "-m" = 1
      ∧ ∃ l1 l2, codexBuildCommand
          { name := "codex", binaryPath := "/usr/bin/agent", autoApprove := true,
            defaultModel := none }
          "say hi" { model := some "opus" } = l1 ++ ["-m", "opus"] ++ l2)
  ∧ ((geminiBuildCommand
        { name := "gemini", binaryPath := "/usr/bin/agent", autoApprove := true,
          defaultModel := none }
        "say hi" { model := some "opus" }).count "-m" = 1
      ∧ ∃ l1 l2, geminiBuildCommand
          { name := "gemini", binaryPath := "/usr/bin/agent", autoApprove := true,
            defaultModel := none }
          "say hi" { model := some "opus" } = l1 ++ ["-m", "opus"] ++ l2) :=
  buildCommand_approve_and_model "/usr/bin/agent" "say hi" "opus" true none
    (by decide) (by decide) (by decide) (by decide)
    (fun s hs => Option.noConfusion hs)

/-- Joining with a separator can only lengthen the first part. -/
theorem pyJoin_head_le (sep x : String) (xs : List String) :
    x.length ≤ (pyJoin sep (x :: xs)).length := by
  cases xs with
  | nil => simp [pyJoin]
  | cons y ys =>
    simp only [pyJoin, String.length_append]
    omega

/-- The synthesis prompt is strictly longer than the original prompt: it
embeds it after the fixed "ORIGINAL TASK: " header. -/
theorem buildSynthesisPrompt_length (prompt : String) (results : List AgentResult) :
    prompt.length < (buildSynthesisPrompt prompt results).length := by
  have h := pyJoin_head_le "\n"
    ("ORIGINAL TASK: " ++ prompt ++ "\n\nRESULTS FROM AGENTS:\n")
    (results.map (fun r =>
        "--- " ++ r.agentName.toUpper ++ " [" ++ statusLabel r ++ "] ---\n" ++ r.output ++ "\n")
      ++ ["\nSynthesize these results into a single, coherent response. Merge complementary information, resolve conflicts, and present the best unified answer."])
  rw [buildSynthesisPrompt]
  have e : ("ORIGINAL TASK: " ++ prompt ++ "\n\nRESULTS FROM AGENTS:\n").length
      = 15 + prompt.length + 23 := by
    rw [String.length_append, String.length_append]
    norm_num [show ("ORIGINAL TASK: " : String).length = 15 from by decide,
      show ("\n\nRESULTS FROM AGENTS:\n" : String).length = 23 from by decide]
  omega

/-- The synthesis prompt is never the original prompt itself. -/
theorem buildSynthesisPrompt_ne (prompt : String) (results : List AgentResult) :
    buildSynthesisPrompt prompt results ≠ prompt := by
  intro h
  have hlt := buildSynthesisPrompt_length prompt results
  rw [h] at hlt
  omega

/-- Claim C3: with the coordinator-only primary ("claude") and a plan with
`delegate = false`, `run` never runs the user prompt on the primary.  If a
non-primary adapter exists, it broadcasts the unmodified prompt to every
adapter except the primary, then performs exactly one synthesis call on
the primary (whose prompt differs from the user prompt); otherwise it
raises the fatal no-worker error without any executor call.  (The analysis
step itself runs on a composed analysis prompt, not the bare user
prompt.) -/
theorem orchestrator_coordinator_only_no_delegate
    (adapterNames : List String) (prompt : String) (plan : Plan)
    (runSingleO : String → String → AgentResult)
    (runParallelO : List (String × String) → List AgentResult)
    (hd : plan.delegate = false) :
    ((adapterNames.filter fun a => a != "claude") = [] →
      orchestratorRun "claude" adapterNames prompt (Except.ok plan) runSingleO runParallelO
        = (Except.error noWorkerError, []))
  ∧ ((adapterNames.filter fun a => a != "claude") ≠ [] →
      ∃ sp,
        orchestratorRun "claude" adapterNames prompt (Except.ok plan) runSingleO runParallelO
          = (Except.ok (runSingleO "claude" sp).output,
             [OrchCall.parallel
                ((adapterNames.filter fun a => a != "claude").map fun a => (a, prompt)),
              OrchCall.single "claude" sp])
        ∧ sp = buildSynthesisPrompt prompt
            (runParallelO ((adapterNames.filter fun a => a != "claude").map fun a => (a, prompt)))
        ∧ sp ≠ prompt) := by
  constructor
  · intro hw
    simp [orchestratorRun, hd, primaryIsCoordinatorOnly, workerFallbackFlow,
      buildWorkerFallbackTasks, hw]
  · intro hw
    refine ⟨_, ?_, rfl, buildSynthesisPrompt_ne prompt _⟩
    have hne : ((adapterNames.filter fun a => a != "claude").map
        fun a => (a, prompt)).isEmpty = false := by
      cases hfe : adapterNames.filter fun a => a != "claude" with
      | nil => exact absurd hfe hw
      | cons x xs => rfl
    simp [orchestratorRun, hd, primaryIsCoordinatorOnly, workerFallbackFlow,
      buildWorkerFallbackTasks, hne]

/-- Constant single-call oracle for the orchestrator witness. -/
def oracleSingleW : String → String → AgentResult :=
  fun a _ => { agentName := a, output := "synthesized", success := true }

/-- Parallel-call oracle for the orchestrator witness: one successful
result per task. -/
def oracleParallelW : List (String × String) → List AgentResult :=
  fun ts => ts.map fun t => { agentName := t.1, output := "out", success := true }

/-- Claim C3, witness: primary "claude" with workers "gemini" and "codex"
and a delegate=false plan broadcasts the unchanged prompt to both workers
and then synthesizes once on the primary. -/
theorem orchestrator_coordinator_only_no_delegate_witness :
    ∃ sp,
      orchestratorRun "claude" ["claude", "gemini", "codex"] "do the task"
          (Except.ok { delegate := false }) oracleSingleW oracleParallelW
        = (Except.ok (oracleSingleW "claude" sp).output,
           [OrchCall.parallel
              ((["claude", "gemini", "codex"].filter fun a => a != "claude").map
                fun a => (a, "do the task")),
            OrchCall.single "claude" sp])
      ∧ sp = buildSynthesisPrompt "do the task"
          (oracleParallelW ((["claude", "gemini", "codex"].filter fun a => a != "claude").map
            fun a => (a, "do the task")))
      ∧ sp ≠ "do the task" :=
  (orchestrator_coordinator_only_no_delegate ["claude", "gemini", "codex"] "do the task"
    { delegate := false } oracleSingleW oracleParallelW rfl).2 (by decide)

end Neurones
